import Mathlib

/-
Verification of the cameradar scanning/attack engine (Go sources:
attack.go, scanner.go, summary.go).

Modelling conventions:
* Pure Go code (parseAuthHeader, status-code classification, loop
  structure) is translated directly into Lean functions.
* Network effects (TCP connect, RTSP DESCRIBE/SETUP/PLAY) are modelled
  by explicit environment records: each fallible external operation
  becomes a field of an environment structure, an `Option` result
  standing for the error case of the Go call.
* Go byte slices are `List Nat` (byte values); Go strings are Lean
  `String` (the inputs exercised here are ASCII, where Go's
  strings.ToLower / TrimSpace agree with the Lean counterparts).
* `description.Session` (gortsplib) is opaque to the repository code and
  is modelled as an abstract token.
-/

set_option linter.unusedVariables false

namespace Cameradar

/-- Opaque stand-in for gortsplib's `description.Session`, which the
repository code only stores and passes along. -/
structure Session where
  id : Nat := 0
deriving DecidableEq

/-- Modelled from the spec: the repository's `Stream` record is declared in a
source file (types.go) that is not part of the provided sources; its fields
follow §3 of the spec and the field uses in attack.go, scanner.go and
summary.go. -/
structure Stream where
  Device : String := ""
  Username : String := ""
  Password : String := ""
  Routes : List String := []
  Address : String := ""
  Port : Nat := 0
  CredentialsFound : Bool := false
  RouteFound : Bool := false
  Available : Bool := false
  AuthenticationType : Int := 0
  BannerResponse : List Nat := []
  Media : Session := ⟨0⟩
deriving DecidableEq

/-- Modelled from the spec: `Stream.Route()` (types.go, not in the provided
sources) — the derived "effective route" used to build URLs: the first
discovered route, or empty if none was found. -/
def Stream.Route (s : Stream) : String :=
  s.Routes.headD ""

/-- attack.go `AuthInfo`. The Go field `Type` is spelled `Type'` here because
`Type` is a Lean keyword. -/
structure AuthInfo where
  Type' : String := ""
  Realm : String := ""
  Nonce : String := ""
  Opaque : String := ""
  Stale : String := ""
  Algorithm : String := ""
  Qop : String := ""
  Header : String := ""
deriving DecidableEq

/-- attack.go line 37: route that should never be a constructor default. -/
def dummyRoute : String := "/0x8b6c42"

/-- ASCII case lowering of one character (Go `strings.ToLower` restricted to
the ASCII range exercised by this code). -/
def lowerChar (c : Char) : Char :=
  if 65 ≤ c.toNat && c.toNat ≤ 90 then Char.ofNat (c.toNat + 32) else c

/-- Go `strings.ToLower` (ASCII fragment). -/
def lowerStr (s : String) : String :=
  String.mk (s.data.map lowerChar)

/-- Whether the second list is a leading segment of the first. -/
def hasPrefixChars : List Char → List Char → Bool
  | _, [] => true
  | [], _ :: _ => false
  | c :: cs, p :: ps => (c = p) && hasPrefixChars cs ps

/-- Go `strings.HasPrefix`. -/
def strHasPre (s pre : String) : Bool :=
  hasPrefixChars s.data pre.data

/-- Go's `unicode.IsSpace` on the ASCII whitespace this code meets. -/
def isSpc (c : Char) : Bool :=
  c = ' ' || c = '\t' || c = '\n' || c = '\r'

/-- Go `strings.TrimSpace`. -/
def trimWS (s : String) : String :=
  String.mk (((s.data.dropWhile isSpc).reverse.dropWhile isSpc).reverse)

/-- Split a character list at every occurrence of `c` (Go `strings.Split`
with a one-character separator). -/
def splitChars (c : Char) : List Char → List (List Char)
  | [] => [[]]
  | x :: xs =>
    if x = c then [] :: splitChars c xs
    else
      match splitChars c xs with
      | h :: t => (x :: h) :: t
      | [] => [[x]]

/-- Go `strings.Split(s, sep)` for a one-character separator. -/
def splitAll (c : Char) (s : String) : List String :=
  (splitChars c s.data).map String.mk

/-- Go `strings.SplitN(s, sep, 2)` for a one-character separator: split at the
first occurrence only; if the separator does not occur, return `[s]`. -/
def splitOnce (c : Char) (s : String) : List String :=
  let pre := s.data.takeWhile (fun x => x ≠ c)
  if pre.length = s.data.length then [s]
  else [String.mk pre, String.mk (s.data.drop (pre.length + 1))]

/-- Go `strings.Trim(s, cutset)` for the one-character cutset: remove all
leading and trailing occurrences of `c`. -/
def trimChar (c : Char) (s : String) : String :=
  String.mk (((s.data.dropWhile (fun x => x = c)).reverse.dropWhile (fun x => x = c)).reverse)

/-- One iteration of the digest parameter loop in attack.go `parseAuthHeader`:
split a `key=value` pair at the first `=`, trim, unquote, and assign to the
matching `AuthInfo` field. -/
def applyDigestParam (info : AuthInfo) (pair : String) : AuthInfo :=
  match splitOnce '=' (trimWS pair) with
  | [k, v] =>
    let key := trimWS k
    let value := trimChar '"' (trimWS v)
    if key = ("realm") then { info with Realm := value }
    else if key = ("nonce") then { info with Nonce := value }
    else if key = ("opaque") then { info with Opaque := value }
    else if key = ("stale") then { info with Stale := value }
    else if key = ("algorithm") then { info with Algorithm := value }
    else if key = ("qop") then { info with Qop := value }
    else info
  | _ => info

/-- attack.go `parseAuthHeader` (lines 197–240). -/
def parseAuthHeader (wwwAuthenticate : String) : AuthInfo :=
  let info : AuthInfo := { Header := wwwAuthenticate }
  if strHasPre (lowerStr wwwAuthenticate) ("digest") then
    match splitOnce ' ' wwwAuthenticate with
    | [_, params] =>
      (splitAll ',' params).foldl applyDigestParam { info with Type' := ("Digest") }
    | _ => { info with Type' := ("Digest") }
  else if strHasPre (lowerStr wwwAuthenticate) ("basic") then
    match splitOnce ' ' wwwAuthenticate with
    | [_, rest] => { info with Type' := ("Basic"), Realm := trimChar '"' rest }
    | _ => { info with Type' := ("Basic") }
  else info

/-- The part of gortsplib's `base.Response` that attack.go inspects: a status
code and a header multimap. -/
structure RTSPResponse where
  StatusCode : Nat
  Header : List (String × List String)
deriving DecidableEq

/-- Go map lookup `resp.Header[key]` with its `ok` flag, as an `Option`. -/
def headerValues (resp : RTSPResponse) (key : String) : Option (List String) :=
  (resp.Header.find? (fun kv => kv.1 = key)).map (fun kv => kv.2)

/-- attack.go `detectAuthentication` (lines 242–247): parse the first
`WWW-Authenticate` header when present and non-empty, otherwise return the Go
`nil` pointer, modelled as `none`. -/
def detectAuthentication (resp : RTSPResponse) : Option AuthInfo :=
  match headerValues resp ("WWW-Authenticate") with
  | some (h :: _) => some (parseAuthHeader h)
  | _ => none

/-- Environment for one attack.go `detectAuthMethod` call: whether
`base.ParseURL` and `client.Start` succeed, and the result of
`client.Describe` (`none` models the error return). -/
structure AuthDetectEnv where
  parseOk : Bool
  startOk : Bool
  describeResult : Option RTSPResponse

/-- attack.go `detectAuthMethod` (lines 325–360). The result is
`some code` for a normal return (`-1` detection error, `0` none, `1` basic,
`2` digest); `none` models the nil-pointer dereference the Go code performs
when `detectAuthentication` returns `nil` (it reads `authinfo.Type` without a
nil check), i.e. a runtime panic. -/
def detectAuthMethod (env : AuthDetectEnv) : Option Int :=
  if env.parseOk = false then some (-1)
  else if env.startOk = false then some (-1)
  else
    match env.describeResult with
    | none => some (-1)
    | some rc =>
      match detectAuthentication rc with
      | none => none
      | some authinfo =>
        if authinfo.Type' = ("digest") then some 2
        else if authinfo.Type' = ("basic") then some 1
        else some 0

/-- Environment for attack.go `routeAttack` calls: the outcome of issuing a
DESCRIBE for a given URL. `none` collapses the three error exits of the Go
function (URL parse failure, `client.Start` failure, `client.Describe`
failure); `some st` is the response status code. -/
structure RouteEnv where
  describe : String → Option Nat

/-- attack.go line 363 (also 398, 326): the DESCRIBE URL
`fmt.Sprintf("rtsp://%s:%d/%s", stream.Address, stream.Port, stream.Route())`.
Note that it is built from the stream's effective route, not from any
candidate route being attacked. -/
def rtspURL (stream : Stream) : String :=
  "rtsp://" ++ stream.Address ++ ":" ++ toString stream.Port ++ "/" ++ stream.Route

/-- attack.go `routeAttack` (lines 362–395). The `route` parameter is declared
by the Go function but never used: the URL is built from `stream.Route()`.
Statuses 200, 401 and 403 count as success. -/
def routeAttack (env : RouteEnv) (stream : Stream) (route : String) : Bool :=
  match env.describe (rtspURL stream) with
  | none => false
  | some st => st = 200 || st = 401 || st = 403

/-- attack.go `attackCameraRoute` (lines 172–195), with the channel send
replaced by returning the stream; the second component counts how many
dictionary probes (`routeAttack` calls on dictionary entries) were made. -/
def attackCameraRoute (env : RouteEnv) (routes : List String) (target : Stream) :
    Stream × Nat :=
  if routeAttack env target dummyRoute then
    ({ target with RouteFound := true, Routes := target.Routes ++ ["/"] }, 0)
  else
    (routes.foldl
      (fun t route =>
        if routeAttack env t route then
          { t with RouteFound := true, Routes := t.Routes ++ [route] }
        else t)
      target,
     routes.length)

/-- Environment for attack.go `credAttack` calls: the outcome of the DESCRIBE
issued on the k-th credential attempt (the Go code performs one network call
per username/password pair). `none` collapses the error exits; `some`
carries the status code and the session description. -/
structure CredEnv where
  describe : Nat → Option (Nat × Session)

/-- attack.go `credAttack` (lines 397–431). The `username` and `password`
parameters are declared by the Go function but never used in the request:
the URL is built from address, port and `stream.Route()` only. Statuses 200
and 404 count as success, returning the session description. -/
def credAttack (env : CredEnv) (attempt : Nat) (stream : Stream)
    (username password : String) : Option Session :=
  match env.describe attempt with
  | none => none
  | some (st, sess) => if st = 200 || st = 404 then some sess else none

/-- Whether the k-th credential attempt would be accepted: the DESCRIBE
returned and its status was 200 or 404. -/
def credAccepted (env : CredEnv) (k : Nat) : Bool :=
  match env.describe k with
  | none => false
  | some (st, _) => st = 200 || st = 404

/-- Inner password loop of attack.go `attackCameraCredentials` (lines
153–166), threading the attempt counter; `some` result means the loop hit a
success and returned. -/
def credLoopP (env : CredEnv) (target : Stream) (u : String) :
    List String → Nat → Option Stream × Nat
  | [], k => (none, k)
  | p :: ps, k =>
    match credAttack env k target u p with
    | some media =>
      (some { target with CredentialsFound := true, Username := u, Password := p,
                          Media := media }, k + 1)
    | none => credLoopP env target u ps (k + 1)

/-- Outer username loop of attack.go `attackCameraCredentials`
(lines 152–170). -/
def credLoopU (env : CredEnv) (target : Stream) :
    List String → List String → Nat → Stream × Nat
  | [], _, k => ({ target with CredentialsFound := false }, k)
  | u :: us, ps, k =>
    match credLoopP env target u ps k with
    | (some res, k2) => (res, k2)
    | (none, k2) => credLoopU env target us ps k2

/-- attack.go `attackCameraCredentials` (lines 152–170), with the channel send
replaced by returning the stream; the second component is the number of
DESCRIBE attempts performed. -/
def attackCameraCredentials (env : CredEnv) (usernames passwords : List String)
    (target : Stream) : Stream × Nat :=
  credLoopU env target usernames passwords 0

/-- The username × password grid in the order the nested loops of
`attackCameraCredentials` visit it: usernames outer, passwords inner. -/
def credGrid (usernames passwords : List String) : List (String × String) :=
  usernames.flatMap (fun u => passwords.map (fun p => (u, p)))

/-- Environment for one attack.go `validateStream` call (lines 433–489):
whether each stage of the handshake (`base.ParseURL`, `client.Start`,
`client.SetupAll`, `client.Play`, `client.StartRecording`) succeeds. -/
structure ValidateEnv where
  parseOk : Bool
  startOk : Bool
  setupOk : Bool
  playOk : Bool
  recordOk : Bool

/-- attack.go `validateStream` (lines 433–489). Every error exit returns
false, and the fall-through after a successful `StartRecording` is the
literal `return false` on line 487 of the source. -/
def validateStream (env : ValidateEnv) (stream : Stream) : Bool :=
  if env.parseOk = false then false
  else if env.startOk = false then false
  else if env.setupOk = false then false
  else if env.playOk = false then false
  else if env.recordOk = false then false
  else false

/-- attack.go `ValidateStreams` (lines 78–85): set each stream's `Available`
flag from `validateStream` (the pacing sleep has no observable effect). -/
def ValidateStreams (env : Stream → ValidateEnv) (targets : List Stream) :
    List Stream :=
  targets.map (fun t => { t with Available := validateStream (env t) t })

/-- The per-stream condition of the second-round check in attack.go `Attack`
(line 61): `!stream.RouteFound || !stream.CredentialsFound ||
!stream.Available`. -/
def streamUnresolved (s : Stream) : Bool :=
  !s.RouteFound || !s.CredentialsFound || !s.Available

/-- attack.go `Attack` (lines 40–75). The four phases are abstracted as pure
batch transformers (each per-target failure is absorbed into the stream
record by the phase itself, as proved for the individual primitives). The
`Bool` in the result records whether the second attack round ran, making the
retry side effect observable; the Go loop over `streams` with `break`
triggers that round exactly when some stream of the validated batch is
unresolved. -/
def Attack (fRoute fAuth fCred fValidate : List Stream → List Stream)
    (targets : List Stream) : Except String (List Stream × Bool) :=
  if targets.isEmpty then Except.error ("no stream found")
  else
    let s4 := fValidate (fCred (fAuth (fRoute targets)))
    if s4.any streamUnresolved then Except.ok (fValidate (fRoute s4), true)
    else Except.ok (s4, false)

/-- Result of one port probe: scanner.go `PortStatus` (lines 33–39). The
banner is a byte list (Go keeps it as a string of raw bytes). -/
structure PortStatus where
  host : String
  port : Int
  isOpened : Bool
  isRTSP : Bool
  banner : List Nat
deriving DecidableEq

/-- One TCP connection as scanner.go `isPortRTSP` observes it: whether the
probe write succeeds, and the bytes the single read delivers (`none` is a
read error). -/
structure Conn where
  writeOk : Bool
  readData : Option (List Nat)

/-- The ASCII bytes of the literal tag `"RTSP"`. -/
def rtspTag : List Nat := [82, 84, 83, 80]

/-- scanner.go `isPortRTSP` (lines 41–61), returning
(classification, banner, error flag) for the Go triple
`(bool, []byte, error)`. `fullbuffer` is the 256-byte zeroed read buffer:
the delivered bytes followed by zero padding; `buffer` is its first four
bytes, compared against `"RTSP"`. On a write or read error the Go code
returns a nil banner. -/
def isPortRTSP (c : Conn) : Bool × Option (List Nat) × Bool :=
  if c.writeOk = false then (false, none, true)
  else
    match c.readData with
    | none => (false, none, true)
    | some bs =>
      let fullbuffer := bs.take 256 ++ List.replicate (256 - bs.length) 0
      let buffer := fullbuffer.take 4
      if buffer = rtspTag then (true, some fullbuffer, false)
      else (false, some fullbuffer, false)

/-- Go `string(b)` where `b` may be the nil byte slice: nil becomes "". -/
def bannerBytes : Option (List Nat) → List Nat
  | none => []
  | some bs => bs

/-- scanner.go `isPortOpened` (lines 63–81), with the TCP dial modelled as
`Option Conn` (`none` is a connect failure) and the channel send replaced by
returning the `PortStatus`. -/
def isPortOpened (connectResult : Option Conn) (hostname : String) (port : Int) :
    PortStatus :=
  match connectResult with
  | none => ⟨hostname, port, false, false, []⟩
  | some conn =>
    match isPortRTSP conn with
    | (status, banner, errFlag) =>
      if errFlag then ⟨hostname, port, true, false, bannerBytes banner⟩
      else if status then ⟨hostname, port, true, true, bannerBytes banner⟩
      else ⟨hostname, port, true, false, bannerBytes banner⟩

/-- Digit run of `fmt.Sscanf(s, "%d")` after sign handling: `none` when no
leading digit is present. -/
def digitsVal (cs : List Char) : Option Nat :=
  let ds := cs.takeWhile Char.isDigit
  if ds.isEmpty then none
  else some (ds.foldl (fun a c => a * 10 + (c.toNat - 48)) 0)

/-- The largest value of Go's 64-bit `int`. -/
def int64Max : Nat := 9223372036854775807

/-- Model of scanner.go line 93, `fmt.Sscanf(port, "%d", &numport)`: skip
leading spaces, accept an optional sign followed by at least one digit
(trailing non-digit input is not an error for `Sscanf`), fail otherwise.
A digit run whose value does not fit Go's 64-bit `int` makes `Sscanf` fail
with a value-out-of-range error, so such ports are skipped too. -/
def parsePort (s : String) : Option Int :=
  let cs := s.data.dropWhile (fun c => c = ' ' || c = '\t')
  match cs with
  | '-' :: rest =>
    (digitsVal rest).bind (fun n =>
      if n ≤ int64Max + 1 then some (-(n : Int)) else none)
  | '+' :: rest =>
    (digitsVal rest).bind (fun n =>
      if n ≤ int64Max then some ((n : Int)) else none)
  | _ =>
    (digitsVal cs).bind (fun n =>
      if n ≤ int64Max then some ((n : Int)) else none)

/-- scanner.go lines 110–115: the `Stream` built from an RTSP-classified
probe result; `uint16(result.port)` keeps the low 16 bits. -/
def mkScanStream (r : PortStatus) : Stream :=
  { Address := r.host, Port := (r.port % 65536).toNat, BannerResponse := r.banner }

/-- The number of prober goroutines `ScanHosts` launches: one per target host
and parseable port string (unparseable ports are skipped by `continue`). -/
def launchedProbes (targets ports : List String) : Nat :=
  targets.length * (ports.filterMap parsePort).length

/-- scanner.go `ScanHosts` (lines 84–120). The probes are modelled by a
connection oracle per (host, port). The `results` channel is created with
capacity `len(s.ports)` (line 86); every prober goroutine sends its
`PortStatus` before its deferred `wg.Done()` fires, and `wg.Wait()`
(line 102) runs before any receive, so the function returns only when all
launched goroutines fit the channel buffer — `launchedProbes ≤ ports.length`.
Otherwise the surplus senders block forever on the full channel and
`wg.Wait()` never returns: `none` models that permanent block. On return,
the collection loop appends one `Stream` per result whose `isRTSP` flag is
set, and the returned Go `error` is always nil. -/
def ScanHosts (connOracle : String → Int → Option Conn)
    (targets ports : List String) : Option (List Stream × Option String) :=
  if launchedProbes targets ports ≤ ports.length then
    some
      ((targets.flatMap (fun host =>
          ports.filterMap (fun p =>
            (parsePort p).map (fun n => isPortOpened (connOracle host n) host n)))).foldl
        (fun acc r => if r.isRTSP then acc ++ [mkScanStream r] else acc) [],
       none)
  else none

/-- The probe results of `ScanHosts` in canonical order: one per target host
and parseable port. -/
def probedResults (connOracle : String → Int → Option Conn)
    (targets ports : List String) : List PortStatus :=
  targets.flatMap (fun host =>
    (ports.filterMap parsePort).map (fun n => isPortOpened (connOracle host n) host n))

/- ------------------------------------------------------------------ -/
/- Theorems                                                            -/
/- ------------------------------------------------------------------ -/

/-- The two header examples of the spec's Auth Header Parser claim. -/
def digestHeaderEx : String := "Digest realm=\"x\", nonce=\"y\", qop=\"auth\""

/-- The Basic header example of the spec's Auth Header Parser claim. -/
def basicHeaderEx : String := "Basic realm=\"z\""

/-- C7 (counterexample): the claim says `Basic realm="z"` parses to a
descriptor with Realm `"z"`, but `parseAuthHeader` assigns the whole
remainder after the scheme token, trimmed of quote characters only, so the
Realm is the string `realm="z`, not `z`. -/
theorem parseAuthHeader_basic_realm_counterexample :
    (parseAuthHeader basicHeaderEx).Realm ≠ ("z") := by
  decide

/-- C7 (amended): `parseAuthHeader` maps the digest example to a descriptor
with Type `"Digest"` (capitalised, as the source writes it), Realm `"x"`,
Nonce `"y"`, Qop `"auth"` and empty Opaque, Stale and Algorithm; it maps
`Basic realm="z"` to Type `"Basic"` with Realm equal to the remainder after
the scheme token trimmed of quote characters, i.e. `realm="z`; and every
header whose scheme prefix is neither digest nor basic (case-insensitively)
yields a descriptor with an empty type and the raw header preserved. -/
theorem parseAuthHeader_amended_spec :
    parseAuthHeader digestHeaderEx =
      ⟨("Digest"), ("x"), ("y"), (""), (""), (""), ("auth"), digestHeaderEx⟩ ∧
    parseAuthHeader basicHeaderEx =
      ⟨("Basic"), ("realm=\"z"), (""), (""), (""), (""), (""), basicHeaderEx⟩ ∧
    (∀ h : String, strHasPre (lowerStr h) ("digest") = false →
      strHasPre (lowerStr h) ("basic") = false →
      parseAuthHeader h = { Header := h }) := by
  refine ⟨by decide, by decide, ?_⟩
  intro h hd hb
  simp [parseAuthHeader, hd, hb]

/-- C7 (witness): the unknown-scheme case of the amended claim at the
concrete header `Bearer token`. -/
theorem parseAuthHeader_amended_spec_witness :
    parseAuthHeader ("Bearer token") = { Header := ("Bearer token") } :=
  parseAuthHeader_amended_spec.2.2 ("Bearer token") (by decide) (by decide)

/-- A DESCRIBE response carrying no challenge header. -/
def noChallengeResp : RTSPResponse := ⟨200, []⟩

/-- A DESCRIBE response carrying a Digest challenge header. -/
def digestChallengeResp : RTSPResponse :=
  ⟨401, [(("WWW-Authenticate"), [("Digest realm=\"x\", nonce=\"y\"")])]⟩

/-- C5 (code bug): on a response with no WWW-Authenticate header,
`detectAuthentication` returns Go `nil`, and `detectAuthMethod` dereferences
it (`authinfo.Type`) without a nil check — a nil-pointer panic, modelled as
`none`, instead of one of the four sentinel values the claim requires.
Additionally, even a response with a Digest challenge is classified as `0`
(no authentication) because `parseAuthHeader` produces Type `"Digest"` while
`detectAuthMethod` compares against the lowercase `"digest"`. -/
theorem detectAuthMethod_nil_header_bug :
    detectAuthMethod ⟨true, true, some noChallengeResp⟩ = none ∧
    detectAuthMethod ⟨true, true, some digestChallengeResp⟩ = some 0 := by
  exact ⟨rfl, by decide⟩

/-- A validation environment in which every handshake stage succeeds. -/
def allOkEnv : ValidateEnv := ⟨true, true, true, true, true⟩

/-- C2 (code bug): `validateStream` returns `false` on every path — including
the one where URL parsing, `client.Start`, `client.SetupAll`, `client.Play`
and `client.StartRecording` all succeed (the function's final statement is
`return false`) — so `Available` is never set to `true` even when the full
handshake completes through playback start without error. The failure half of
the claim does hold: every stage failure also yields `false`, and
`ValidateStreams` never surfaces an error to its caller. -/
theorem validateStream_always_false_bug :
    validateStream allOkEnv { Address := ("cam"), Port := 554 } = false ∧
    (∀ (env : ValidateEnv) (s : Stream), validateStream env s = false) ∧
    (∀ (env : Stream → ValidateEnv) (targets : List Stream),
      (ValidateStreams env targets).all (fun s => !s.Available) = true) := by
  refine ⟨rfl, ?_, ?_⟩
  · intro env s
    rcases env with ⟨p, st, se, pl, re⟩
    cases p <;> cases st <;> cases se <;> cases pl <;> cases re <;> rfl
  · intro env targets
    simp only [ValidateStreams, List.all_eq_true, List.mem_map]
    rintro s ⟨t, _, rfl⟩
    rcases h : env t with ⟨p, st, se, pl, re⟩
    cases p <;> cases st <;> cases se <;> cases pl <;> cases re <;> rfl

/-- Route-attack environment for the C1 counterexample: the effective-route
URL of the stream answers 404, while the URL of dictionary candidate `b`
would answer 200. -/
def envC1 : RouteEnv :=
  ⟨fun url =>
    if url = ("rtsp://cam:554/") then some 404
    else if url = ("rtsp://cam:554/b") then some 200
    else none⟩

/-- The C1 counterexample stream: no route discovered yet. -/
def streamC1 : Stream := { Address := ("cam"), Port := 554 }

/-- C1 (code bug): `routeAttack` never queries the candidate path — the
DESCRIBE URL is built from `stream.Route()` and the `route` argument is
unused. With a server that answers 200 on candidate `b` and 404 on the
stream's effective route, the route attack leaves the found-routes list
empty and `RouteFound` false, although the claim (and the function's own
"bruteforce the routes" comment) requires the candidate path `b` to be
queried and appended. -/
theorem routeAttack_ignores_candidate_bug :
    envC1.describe ("rtsp://cam:554/b") = some 200 ∧
    routeAttack envC1 streamC1 ("b") = false ∧
    (attackCameraRoute envC1 [("b")] streamC1).1.RouteFound = false ∧
    (attackCameraRoute envC1 [("b")] streamC1).1.Routes = [] := by
  refine ⟨by decide, by decide, by decide, by decide⟩

/-- C6: when the dummy-route probe succeeds, `attackCameraRoute` records
exactly the root path `"/"` (appended to the existing route list), sets
`RouteFound`, and performs zero dictionary probes; a stream that started with
an empty route list ends with exactly one route. -/
theorem attackCameraRoute_dummy_spec (env : RouteEnv) (routes : List String)
    (target : Stream) (h : routeAttack env target dummyRoute = true) :
    attackCameraRoute env routes target =
      ({ target with RouteFound := true, Routes := target.Routes ++ ["/"] }, 0) ∧
    (target.Routes = [] → (attackCameraRoute env routes target).1.Routes = ["/"]) := by
  constructor
  · simp [attackCameraRoute, h]
  · intro he
    simp [attackCameraRoute, h, he]

/-- Route-attack environment whose DESCRIBE always answers 200. -/
def envAll200 : RouteEnv := ⟨fun _ => some 200⟩

/-- The stream used by the C6 witness. -/
def streamC6 : Stream := { Address := ("h"), Port := 1 }

/-- C6 (witness): the dummy-probe success case at a concrete environment and
stream with an empty starting route list and a two-entry dictionary. -/
theorem attackCameraRoute_dummy_spec_witness :
    attackCameraRoute envAll200 [("a"), ("b")] streamC6 =
      ({ streamC6 with RouteFound := true, Routes := streamC6.Routes ++ ["/"] }, 0) :=
  (attackCameraRoute_dummy_spec envAll200 [("a"), ("b")] streamC6 (by decide)).1

/-- C4: for a non-empty batch, the orchestrator runs a second Route Attacker
pass followed by a second Validator pass over the entire batch exactly when
some stream of the first-round result has `RouteFound`, `CredentialsFound` or
`Available` false; when every stream is fully resolved the first-round result
is returned untouched (no second-round side effects), and the result shape
permits at most the one retry round. -/
theorem attack_second_round_spec (fRoute fAuth fCred fValidate : List Stream → List Stream)
    (targets : List Stream) (h : targets ≠ []) :
    Attack fRoute fAuth fCred fValidate targets =
      (if (fValidate (fCred (fAuth (fRoute targets)))).any streamUnresolved then
        Except.ok (fValidate (fRoute (fValidate (fCred (fAuth (fRoute targets))))), true)
      else Except.ok (fValidate (fCred (fAuth (fRoute targets))), false)) ∧
    ((fValidate (fCred (fAuth (fRoute targets)))).any streamUnresolved = true ↔
      ∃ s ∈ fValidate (fCred (fAuth (fRoute targets))),
        s.RouteFound = false ∨ s.CredentialsFound = false ∨ s.Available = false) := by
  constructor
  · have he : targets.isEmpty = false := by
      cases targets with
      | nil => exact absurd rfl h
      | cons a l => rfl
    simp only [Attack, he, Bool.false_eq_true, if_false]
  · simp only [List.any_eq_true, streamUnresolved]
    constructor
    · rintro ⟨s, hs, hcond⟩
      refine ⟨s, hs, ?_⟩
      rcases Bool.or_eq_true_iff.mp hcond with h1 | h2
      · rcases Bool.or_eq_true_iff.mp h1 with h3 | h4
        · exact Or.inl (by simpa using h3)
        · exact Or.inr (Or.inl (by simpa using h4))
      · exact Or.inr (Or.inr (by simpa using h2))
    · rintro ⟨s, hs, hcond⟩
      refine ⟨s, hs, ?_⟩
      rcases hcond with h1 | h2 | h3
      · simp [h1]
      · simp [h2]
      · simp [h3]

/-- A stream left fully unresolved (all flags false). -/
def sZero : Stream := { Address := ("a"), Port := 1 }

/-- C4 (witness): with identity phases and a batch holding one unresolved
stream, the second round runs and the orchestrator returns successfully. -/
theorem attack_second_round_spec_witness :
    Attack id id id id [sZero] = Except.ok ([sZero], true) := by
  have h := (attack_second_round_spec id id id id [sZero] (by simp)).1
  rw [h]
  rfl

/-- C9: the orchestrator returns its hard error exactly on an empty input
batch; for every non-empty batch — and for every behavior of the four phase
transformers, so in particular whatever per-target transport, protocol or
resource failures they absorbed — it returns a stream list with a nil
error. -/
theorem attack_empty_error_spec (fRoute fAuth fCred fValidate : List Stream → List Stream)
    (targets : List Stream) :
    (targets = [] → Attack fRoute fAuth fCred fValidate targets =
      Except.error ("no stream found")) ∧
    (targets ≠ [] → ∃ out, Attack fRoute fAuth fCred fValidate targets = Except.ok out) := by
  constructor
  · intro h
    subst h
    rfl
  · intro h
    have he : targets.isEmpty = false := by
      cases targets with
      | nil => exact absurd rfl h
      | cons a l => rfl
    simp only [Attack, he, Bool.false_eq_true, if_false]
    by_cases hc : (fValidate (fCred (fAuth (fRoute targets)))).any streamUnresolved = true
    · exact ⟨_, by rw [if_pos hc]⟩
    · exact ⟨_, by rw [if_neg hc]⟩

/-- A stream whose route, credentials and availability are all resolved. -/
def sResolved : Stream :=
  { Address := ("a"), Port := 1, RouteFound := true, CredentialsFound := true,
    Available := true }

/-- C9 (witness): the empty batch yields the hard error and a concrete
non-empty batch yields a successful result, with identity phases. -/
theorem attack_empty_error_spec_witness :
    Attack id id id id ([] : List Stream) = Except.error ("no stream found") ∧
    (∃ out, Attack id id id id [sResolved] = Except.ok out) :=
  ⟨(attack_empty_error_spec id id id id []).1 rfl,
   (attack_empty_error_spec id id id id [sResolved]).2 (by simp)⟩

/-- The first four bytes of the padded read buffer equal the RTSP tag exactly
when the first four delivered bytes do: the zero padding can never complete
the tag, whose bytes are all non-zero. -/
theorem take4_pad (bs : List Nat) :
    ((bs.take 256 ++ List.replicate (256 - bs.length) 0).take 4 = rtspTag) ↔
      (bs.take 4 = rtspTag) := by
  rcases bs with _ | ⟨a, _ | ⟨b, _ | ⟨c, _ | ⟨d, rest⟩⟩⟩⟩
  · decide
  · have hL : ((([a] : List Nat).take 256 ++
        List.replicate (256 - ([a] : List Nat).length) 0).take 4) = [a, 0, 0, 0] := rfl
    have hR : (([a] : List Nat).take 4) = [a] := rfl
    rw [hL, hR]
    simp [rtspTag]
  · have hL : ((([a, b] : List Nat).take 256 ++
        List.replicate (256 - ([a, b] : List Nat).length) 0).take 4) = [a, b, 0, 0] := rfl
    have hR : (([a, b] : List Nat).take 4) = [a, b] := rfl
    rw [hL, hR]
    simp [rtspTag]
  · have hL : ((([a, b, c] : List Nat).take 256 ++
        List.replicate (256 - ([a, b, c] : List Nat).length) 0).take 4) = [a, b, c, 0] := rfl
    have hR : (([a, b, c] : List Nat).take 4) = [a, b, c] := rfl
    rw [hL, hR]
    simp [rtspTag]
  · have hL : (((a :: b :: c :: d :: rest).take 256 ++
        List.replicate (256 - (a :: b :: c :: d :: rest).length) 0).take 4) =
        [a, b, c, d] := rfl
    have hR : ((a :: b :: c :: d :: rest).take 4) = [a, b, c, d] := rfl
    rw [hL, hR]

/-- C8: after a successful connect and write, a read that delivers bytes `bs`
is classified as RTSP exactly when the first four bytes of `bs` are the
literal ASCII tag `RTSP`, whatever the remaining content; and a write or read
failure after the connect yields the open-but-not-RTSP status with an empty
banner (a value, never a scan-fatal error). -/
theorem port_prober_spec (hostname : String) (port : Int) (c : Conn) :
    (∀ bs : List Nat, c.writeOk = true → c.readData = some bs →
      ((isPortRTSP c).1 = true ↔ bs.take 4 = rtspTag)) ∧
    (c.writeOk = false ∨ c.readData = none →
      isPortOpened (some c) hostname port = ⟨hostname, port, true, false, []⟩) := by
  constructor
  · intro bs hw hr
    simp only [isPortRTSP, hw, hr, Bool.true_eq_false, if_false]
    rw [← take4_pad bs]
    by_cases hp : ((bs.take 256 ++ List.replicate (256 - bs.length) 0).take 4 = rtspTag)
    · simp [hp]
    · simp [hp]
  · intro herr
    rcases herr with hw | hr
    · simp [isPortOpened, isPortRTSP, hw, bannerBytes]
    · rcases hw : c.writeOk with _ | _
      · simp [isPortOpened, isPortRTSP, hw, bannerBytes]
      · simp [isPortOpened, isPortRTSP, hw, hr, bannerBytes]

/-- A connection delivering an RTSP banner followed by arbitrary junk. -/
def connRTSP : Conn := ⟨true, some ([82, 84, 83, 80, 47, 49, 46, 48, 0, 7])⟩

/-- C8 (witness): the classification criterion at a concrete connection whose
response starts with the RTSP tag. -/
theorem port_prober_spec_witness : (isPortRTSP connRTSP).1 = true :=
  ((port_prober_spec ("h") 554 connRTSP).1 ([82, 84, 83, 80, 47, 49, 46, 48, 0, 7])
    rfl rfl).mpr (by decide)

/-- The result-collection loop of `ScanHosts` appends exactly the RTSP
survivors, in order. -/
theorem foldl_rtsp_collect (l : List PortStatus) :
    ∀ acc : List Stream,
      l.foldl (fun acc r => if r.isRTSP then acc ++ [mkScanStream r] else acc) acc =
        acc ++ l.filterMap (fun r => if r.isRTSP then some (mkScanStream r) else none) := by
  induction l with
  | nil => intro acc; simp
  | cons r l ih =>
    intro acc
    by_cases h : r.isRTSP
    · simp [h, ih]
    · simp [h, ih]

/-- C10 (code bug): `ScanHosts` does not return at all — let alone with a nil
error — whenever the launched probes outnumber the result channel's capacity
`len(ports)`: already a two-host scan of the single port list `["554"]`
launches two sender goroutines against a one-slot buffer, and since every
send precedes its `wg.Done()` and `wg.Wait()` precedes every receive, the
surplus sender and the waiting main goroutine block forever. On the inputs
where it does return (launched probes at most `ports.length` — which covers
the empty target list, the empty port list and all-unparseable port lists),
the error is nil and the stream list holds exactly one `Stream` per probed
pair classified as RTSP. -/
theorem scanHosts_deadlock_bug :
    ScanHosts (fun _ _ => some ⟨true, some [82, 84, 83, 80]⟩)
      [("h1"), ("h2")] [("554")] = none ∧
    (∀ (connOracle : String → Int → Option Conn) (targets ports : List String),
      ScanHosts connOracle targets ports =
        if launchedProbes targets ports ≤ ports.length then
          some ((probedResults connOracle targets ports).filterMap
            (fun r => if r.isRTSP then some (mkScanStream r) else none), none)
        else none) := by
  constructor
  · rfl
  · intro connOracle targets ports
    unfold ScanHosts
    by_cases hc : launchedProbes targets ports ≤ ports.length
    · rw [if_pos hc, if_pos hc]
      rw [foldl_rtsp_collect]
      rw [List.nil_append]
      congr 2
      simp only [probedResults, List.map_filterMap]
    · rw [if_neg hc, if_neg hc]

/-- Flattened form of the nested credential loops: the username × password
grid walked left to right with the attempt counter threaded through. -/
def credFlat (env : CredEnv) (target : Stream) :
    List (String × String) → Nat → Stream × Nat
  | [], k => ({ target with CredentialsFound := false }, k)
  | (u, p) :: rest, k =>
    match credAttack env k target u p with
    | some media =>
      ({ target with CredentialsFound := true, Username := u, Password := p,
                     Media := media }, k + 1)
    | none => credFlat env target rest (k + 1)

/-- Resume `credFlat` on the remaining grid after an inner-loop result. -/
def credContinue (env : CredEnv) (target : Stream)
    (rest : List (String × String)) : Option Stream × Nat → Stream × Nat
  | (some res, k) => (res, k)
  | (none, k) => credFlat env target rest k

/-- A rejected attempt makes `credAttack` return nothing. -/
theorem credAccepted_false_attack (env : CredEnv) (k : Nat) (t : Stream)
    (u p : String) (h : credAccepted env k = false) :
    credAttack env k t u p = none := by
  unfold credAccepted at h
  unfold credAttack
  cases hd : env.describe k with
  | none => rfl
  | some r =>
    rcases r with ⟨st, sess⟩
    rw [hd] at h
    have h2 : (decide (st = 200) || decide (st = 404)) = false := h
    simp only [h2, Bool.false_eq_true, if_false]

/-- An accepted attempt makes `credAttack` return the session of the
response, whose status was 200 or 404. -/
theorem credAccepted_true_attack (env : CredEnv) (k : Nat) (t : Stream)
    (u p : String) (h : credAccepted env k = true) :
    ∃ st sess, env.describe k = some (st, sess) ∧ (st = 200 ∨ st = 404) ∧
      credAttack env k t u p = some sess := by
  unfold credAccepted at h
  cases hd : env.describe k with
  | none =>
    rw [hd] at h
    exact absurd h (by simp)
  | some r =>
    rcases r with ⟨st, sess⟩
    rw [hd] at h
    have h2 : (decide (st = 200) || decide (st = 404)) = true := h
    refine ⟨st, sess, rfl, by simpa using h2, ?_⟩
    unfold credAttack
    rw [hd]
    simp only [h2, if_true]

/-- The inner password loop agrees with the flattened walk of its section of
the grid. -/
theorem credLoopP_flat (env : CredEnv) (target : Stream) (u : String) :
    ∀ (ps : List String) (rest : List (String × String)) (k : Nat),
      credFlat env target (ps.map (fun p => (u, p)) ++ rest) k =
        credContinue env target rest (credLoopP env target u ps k) := by
  intro ps
  induction ps with
  | nil => intro rest k; rfl
  | cons p ps ih =>
    intro rest k
    simp only [List.map_cons, List.cons_append, credFlat, credLoopP]
    cases hca : credAttack env k target u p with
    | some media => simp [credContinue]
    | none => simp [credContinue, ih]

/-- The nested username/password loops agree with the flattened walk of the
whole grid. -/
theorem credLoopU_flat (env : CredEnv) (target : Stream) :
    ∀ (us ps : List String) (k : Nat),
      credLoopU env target us ps k = credFlat env target (credGrid us ps) k := by
  intro us
  induction us with
  | nil => intro ps k; rfl
  | cons u us ih =>
    intro ps k
    have hg : credGrid (u :: us) ps = ps.map (fun p => (u, p)) ++ credGrid us ps := by
      simp [credGrid]
    rw [hg, credLoopP_flat]
    simp only [credLoopU]
    cases hp : credLoopP env target u ps k with
    | mk o k2 =>
      cases o with
      | some res => simp [credContinue]
      | none => simp [credContinue, ih]

/-- When every attempt of the grid section is rejected, the flattened walk
exhausts it, clears `CredentialsFound` and records nothing. -/
theorem credFlat_exhaust (env : CredEnv) (target : Stream) :
    ∀ (l : List (String × String)) (k : Nat),
      (∀ j, j < l.length → credAccepted env (k + j) = false) →
      credFlat env target l k =
        ({ target with CredentialsFound := false }, k + l.length) := by
  intro l
  induction l with
  | nil => intro k h; simp [credFlat]
  | cons up rest ih =>
    rcases up with ⟨u, p⟩
    intro k h
    have h0 : credAccepted env k = false := by
      have := h 0 (by simp)
      simpa using this
    have hca : credAttack env k target u p = none :=
      credAccepted_false_attack env k target u p h0
    simp only [credFlat, hca]
    rw [ih (k + 1) ?_]
    · simp only [List.length_cons]
      congr 1
      omega
    · intro j hj
      have e : k + 1 + j = k + (j + 1) := by omega
      rw [e]
      exact h (j + 1) (by simp only [List.length_cons]; omega)

/-- When attempt `k + i` is the first accepted one inside the grid section,
the flattened walk stops there, records that pair's username, password and
session, and has made `i + 1` attempts counting from `k`. -/
theorem credFlat_found (env : CredEnv) (target : Stream) :
    ∀ (l : List (String × String)) (k i : Nat), i < l.length →
      credAccepted env (k + i) = true →
      (∀ j, j < i → credAccepted env (k + j) = false) →
      ∃ u p st sess, l[i]? = some (u, p) ∧
        env.describe (k + i) = some (st, sess) ∧ (st = 200 ∨ st = 404) ∧
        credFlat env target l k =
          ({ target with CredentialsFound := true, Username := u, Password := p,
                         Media := sess }, k + i + 1) := by
  intro l
  induction l with
  | nil =>
    intro k i hi
    simp at hi
  | cons up rest ih =>
    rcases up with ⟨u, p⟩
    intro k i hi hacc hprev
    cases i with
    | zero =>
      have hacc0 : credAccepted env k = true := by simpa using hacc
      obtain ⟨st, sess, hd, hst, hca⟩ :=
        credAccepted_true_attack env k target u p hacc0
      refine ⟨u, p, st, sess, by simp, by simpa using hd, hst, ?_⟩
      simp only [credFlat, hca]
    | succ i2 =>
      have h0 : credAccepted env k = false := by
        have := hprev 0 (Nat.succ_pos i2)
        simpa using this
      have hca : credAttack env k target u p = none :=
        credAccepted_false_attack env k target u p h0
      have hi2 : i2 < rest.length := by
        simp only [List.length_cons] at hi
        omega
      have hacc2 : credAccepted env (k + 1 + i2) = true := by
        have e : k + 1 + i2 = k + (i2 + 1) := by omega
        rw [e]
        exact hacc
      have hprev2 : ∀ j, j < i2 → credAccepted env (k + 1 + j) = false := by
        intro j hj
        have e : k + 1 + j = k + (j + 1) := by omega
        rw [e]
        exact hprev (j + 1) (by omega)
      obtain ⟨u2, p2, st, sess, hget, hd, hst, hflat⟩ := ih (k + 1) i2 hi2 hacc2 hprev2
      refine ⟨u2, p2, st, sess, ?_, ?_, hst, ?_⟩
      · rw [List.getElem?_cons_succ]
        exact hget
      · have e : k + (i2 + 1) = k + 1 + i2 := by omega
        rw [e]
        exact hd
      · simp only [credFlat, hca]
        rw [hflat]
        congr 1
        omega

/-- C3: the Credential Attacker walks the username × password grid with
usernames outer and passwords inner; an attempt is accepted exactly when its
DESCRIBE returns status 200 or 404. If every attempt is rejected the stream
comes back with `CredentialsFound` false, username and password untouched,
after one attempt per grid cell. If attempt `i` (0-based grid rank, so `i`
attempts precede the success) is the first accepted one, the attacker stops
immediately after `i + 1` attempts, recording exactly the grid's `i`-th
username/password pair and the session description that attempt returned. -/
theorem attackCameraCredentials_spec (env : CredEnv)
    (usernames passwords : List String) (target : Stream) :
    ((∀ j, j < (credGrid usernames passwords).length → credAccepted env j = false) →
      attackCameraCredentials env usernames passwords target =
        ({ target with CredentialsFound := false },
         (credGrid usernames passwords).length)) ∧
    (∀ i, i < (credGrid usernames passwords).length → credAccepted env i = true →
      (∀ j, j < i → credAccepted env j = false) →
      ∃ u p st sess, (credGrid usernames passwords)[i]? = some (u, p) ∧
        env.describe i = some (st, sess) ∧ (st = 200 ∨ st = 404) ∧
        attackCameraCredentials env usernames passwords target =
          ({ target with CredentialsFound := true, Username := u, Password := p,
                         Media := sess }, i + 1)) := by
  constructor
  · intro h
    unfold attackCameraCredentials
    rw [credLoopU_flat]
    have := credFlat_exhaust env target (credGrid usernames passwords) 0 ?_
    · simpa using this
    · intro j hj
      simpa using h j hj
  · intro i hi hacc hprev
    unfold attackCameraCredentials
    rw [credLoopU_flat]
    obtain ⟨u, p, st, sess, hget, hd, hst, hflat⟩ :=
      credFlat_found env target (credGrid usernames passwords) 0 i hi
        (by simpa using hacc) (by intro j hj; simpa using hprev j hj)
    exact ⟨u, p, st, sess, hget, by simpa using hd, hst, by simpa using hflat⟩

/-- Credential environment whose every DESCRIBE answers 200 with session 5. -/
def credEnvW : CredEnv := ⟨fun _ => some (200, ⟨5⟩)⟩

/-- The stream used by the C3 witness. -/
def credStreamW : Stream := { Address := ("cam"), Port := 554 }

/-- C3 (witness): with a one-cell dictionary grid whose first attempt is
accepted, the attacker records the credentials. -/
theorem attackCameraCredentials_spec_witness :
    (attackCameraCredentials credEnvW [("admin")] [("1234")] credStreamW).1.CredentialsFound
      = true := by
  obtain ⟨u, p, st, sess, hget, hd, hst, hres⟩ :=
    (attackCameraCredentials_spec credEnvW [("admin")] [("1234")] credStreamW).2 0
      (by decide) (by decide) (fun j hj => absurd hj (Nat.not_lt_zero j))
  rw [hres]

end Cameradar
